import Mathlib

/-!
Verification of `src/mosley.cpp`: a dual-camera capture server built on the
uEye driver API. The C++ program is embedded shallowly: driver calls become
oracles supplied in environment records, the filesystem becomes an
association list, exceptions become `Except String`, and the function-local
`static` rotation state of `Camera::snap` becomes an explicit state record.
-/

namespace Mosley

/-- Return codes of the uEye driver calls, as used in `mosley.cpp`
(`IS_SUCCESS`, the five codes matched in the `switch` after
`is_ImageFile`, and a catch-all `other` for the `default:` branch). -/
inductive DriverResult where
  | IS_SUCCESS
  | IS_INVALID_PARAMETER
  | IS_FILE_READ_INVALID_BMP_ID
  | IS_FILE_READ_OPEN_ERROR
  | IS_NO_SUCCESS
  | IS_NOT_SUPPORTED
  | other (code : Int)
deriving DecidableEq, Repr

/-- `Camera::LEFT_DEV_ID = 1`. -/
def LEFT_DEV_ID : Nat := 1

/-- `Camera::RIGHT_DEV_ID = 2`. -/
def RIGHT_DEV_ID : Nat := 2

/-- `struct Physical_camera` (the `mem`/`mem_id` driver handles are opaque
pointers that never influence observable behaviour and are not modelled). -/
structure Physical_camera where
  id : Nat
deriving DecidableEq, Repr

/-- `std::array<Physical_camera, 2> cameras`, initialised in the constructor
as `{{{LEFT_DEV_ID,...}, {RIGHT_DEV_ID,...}}}`. -/
def cameras (i : Fin 2) : Physical_camera :=
  if i.val = 0 then ⟨LEFT_DEV_ID⟩ else ⟨RIGHT_DEV_ID⟩

/-- The two `static size_t count[2]` cells of `Camera::snap`. -/
structure Counts where
  c0 : Nat
  c1 : Nat
deriving DecidableEq, Repr

/-- Array read `count[i]`. -/
def Counts.get (c : Counts) (i : Fin 2) : Nat :=
  if i.val = 0 then c.c0 else c.c1

/-- The increment in `count[i]++`. -/
def Counts.bump (c : Counts) (i : Fin 2) : Counts :=
  if i.val = 0 then ⟨c.c0 + 1, c.c1⟩ else ⟨c.c0, c.c1 + 1⟩

/-- The persistent state of `Camera::snap`: the `static size_t current`
rotation cursor and the `static size_t count[2]` per-slot counters. -/
structure CameraState where
  current : Fin 2
  count : Counts
deriving DecidableEq, Repr

/-- The state at program start: `current = 0`, `count = {0, 0}`. -/
def initState : CameraState :=
  ⟨⟨0, by omega⟩, ⟨0, 0⟩⟩

/-- `current = (current+1) % cameras.size()` with `cameras.size() = 2`. -/
def nextIdx (i : Fin 2) : Fin 2 :=
  ⟨(i.val + 1) % 2, by omega⟩

/-- The filesystem under `images/`, as an association list from file name to
byte content; a write shadows older entries. -/
abbrev Fs : Type := List (String × List Nat)

/-- Reading a file: the first entry for the name, if any. -/
def Fs.read : Fs → String → Option (List Nat)
  | [], _ => none
  | (n, b) :: rest, name => if n = name then some b else Fs.read rest name

/-- Writing a file (what a successful `is_ImageFile` save does). -/
def Fs.write (fs : Fs) (name : String) (bytes : List Nat) : Fs :=
  (name, bytes) :: fs

/-- The artifact name built by
`wss << "images/camera-" << camera.id << "-" << seq << ".jpg"`;
`operator<<` renders the integers in decimal, i.e. `Nat.repr`. -/
def mkFilename (devId seq : Nat) : String :=
  "images/camera-" ++ Nat.repr devId ++ "-" ++ Nat.repr seq ++ ".jpg"

/-- The `do { is_SetImageMem(...); result = is_FreezeVideo(...); } while
(result != IS_SUCCESS)` loop, run against the driver's successive answers to
`is_FreezeVideo`: the number of iterations until the first `IS_SUCCESS`
(each iteration re-binds the buffer once and freezes once), or `none` when
the answer list never succeeds (the loop would not terminate). -/
def freezeLoop : List DriverResult → Option Nat
  | [] => none
  | r :: rs =>
    if r = DriverResult.IS_SUCCESS then some 1
    else (freezeLoop rs).map (· + 1)

/-- The `switch (r)` after `is_ImageFile`: the warning printed to `cerr`
for each non-success code, `none` for `IS_SUCCESS` (the `break` branch). -/
def encodeWarning : DriverResult → Option String
  | .IS_SUCCESS => none
  | .IS_INVALID_PARAMETER => some "IS_INVALID_PARAMETER"
  | .IS_FILE_READ_INVALID_BMP_ID => some "IS_FILE_READ_INVALID_BMP"
  | .IS_FILE_READ_OPEN_ERROR => some "IS_FILE_READ_OPEN_ERROR"
  | .IS_NO_SUCCESS => some "IS_NO_SUCCESS"
  | .IS_NOT_SUPPORTED => some "IS_NOT_SUPPORTED"
  | .other c => some ("unknown:" ++ toString c)

/-- The driver's behaviour during one `Camera::snap` call: its successive
answers to the freeze loop, its answer to the `is_ImageFile` save, and the
bytes it would write to disk if that save succeeds. -/
structure SnapEnv where
  freezes : List DriverResult
  encodeResult : DriverResult
  encodedBytes : List Nat
deriving DecidableEq, Repr

/-- The observable outcome of one `Camera::snap` call: the device id used
(logged as `camera: <id> ...`), the artifact file name, the number of
freeze-loop iterations, the `cerr` warning of the encode `switch`, and the
returned byte vector. -/
structure SnapResult where
  devId : Nat
  filename : String
  attempts : Nat
  warning : Option String
  bytes : List Nat
deriving DecidableEq, Repr

/-- `Camera::snap` (src/mosley.cpp lines 58-125). Selects
`cameras[current]`, advances `current = (current+1) % 2`, runs the freeze
loop (returning `none` if it never terminates), builds the file name with
`count[current]++` — note `current` has already been advanced here, exactly
as in the source — attempts the `is_ImageFile` save (writing the file only
on `IS_SUCCESS`), and reads the file back (an unreadable file yields an
empty vector, as `std::istreambuf_iterator` on a failed `ifstream` does). -/
def snap (s : CameraState) (env : SnapEnv) (fs : Fs) :
    Option (SnapResult × CameraState × Fs) :=
  let camera := cameras s.current
  let current' := nextIdx s.current
  match freezeLoop env.freezes with
  | none => none
  | some n =>
    let seq := s.count.get current'
    let count' := s.count.bump current'
    let fname := mkFilename camera.id seq
    let fs' := if env.encodeResult = DriverResult.IS_SUCCESS
               then Fs.write fs fname env.encodedBytes else fs
    some ({ devId := camera.id
            filename := fname
            attempts := n
            warning := encodeWarning env.encodeResult
            bytes := (Fs.read fs' fname).getD [] },
          ⟨current', count'⟩, fs')

/-- A sequence of `snap` calls, threading the static state and the
filesystem; `none` as soon as one call's freeze loop fails to terminate. -/
def runSnaps : CameraState → Fs → List SnapEnv →
    Option (List SnapResult × CameraState × Fs)
  | s, fs, [] => some ([], s, fs)
  | s, fs, e :: es =>
    match snap s e fs with
    | none => none
    | some (r, s', fs') =>
      match runSnaps s' fs' es with
      | none => none
      | some (rs, s'', fs'') => some (r :: rs, s'', fs'')

/-- The driver's behaviour during `Camera::initialize`: the value stored in
`num_cams` by `is_GetNumberOfCameras` (with its own, unchecked, return
code), and the per-device-id answers to `is_InitCamera`,
`is_EnableAutoExit`, `is_AllocImageMem`, `is_SetImageMem`,
`is_ImageFormat` and `is_AOI`. -/
structure InitEnv where
  getNumResult : DriverResult
  numCams : Int
  initCamera : Nat → DriverResult
  enableAutoExit : Nat → DriverResult
  allocImageMem : Nat → DriverResult
  setImageMem : Nat → DriverResult
  imageFormat : Nat → DriverResult
  aoi : Nat → DriverResult

/-- `Camera::initialize(const Physical_camera&)` (src/mosley.cpp lines
136-175): `is_InitCamera` and `is_EnableAutoExit` failures throw
`Camera_exception`; the results of `is_AllocImageMem`, `is_SetImageMem`
and `is_ImageFormat` are discarded by the source (lines 157-161). The
`is_AOI` block (lines 170-174) is compiled only when the `#if 0` guard is
turned on, which the parameter `aoiEnabled` reflects. -/
def initializeDevice (aoiEnabled : Bool) (env : InitEnv) (camId : Nat) :
    Except String Unit :=
  if env.initCamera camId ≠ DriverResult.IS_SUCCESS then
    Except.error "could not initialize camera"
  else if env.enableAutoExit camId ≠ DriverResult.IS_SUCCESS then
    Except.error "could not enable auto exit"
  else if aoiEnabled ∧ env.aoi camId ≠ DriverResult.IS_SUCCESS then
    Except.error "could not set AOI for camera"
  else
    Except.ok ()

/-- `Camera::initialize()` (src/mosley.cpp lines 45-56): throws when
`num_cams < 2` (the return code of `is_GetNumberOfCameras` itself is never
inspected), otherwise runs the per-device setup on device 1 then device 2,
stopping at the first failure. The second component records which device
ids were passed to `is_InitCamera`, in order. -/
def initializeCameras (aoiEnabled : Bool) (env : InitEnv) :
    Except String Unit × List Nat :=
  if env.numCams < 2 then
    (Except.error "two cameras not available", [])
  else
    match initializeDevice aoiEnabled env LEFT_DEV_ID with
    | Except.error e => (Except.error e, [LEFT_DEV_ID])
    | Except.ok () =>
      match initializeDevice aoiEnabled env RIGHT_DEV_ID with
      | Except.error e => (Except.error e, [LEFT_DEV_ID, RIGHT_DEV_ID])
      | Except.ok () => (Except.ok (), [LEFT_DEV_ID, RIGHT_DEV_ID])

/-- The fixed width packed into the msgpack tuple in `main` (line 205). -/
def WIDTH : Int := 3648

/-- The fixed height packed into the msgpack tuple in `main` (line 205). -/
def HEIGHT : Int := 2736

/-- One iteration's observable output in `main`'s request loop: the bytes
handed to `zmq_send`, and the `msgpack_obj src(image, 3648, 2736)` tuple
that is packed into `buf` but never used afterwards. -/
structure ServerStep where
  sent : List Nat
  packed : List Nat × Int × Int
deriving DecidableEq, Repr

/-- The body of `main`'s `while (true)` loop after `zmq_recv` (src/mosley.cpp
lines 199-211): call `camera.snap()`, build the msgpack tuple (dead code),
and `zmq_send(socket, &image[0], image.size(), 0)` — the payload written to
the socket is the `image` vector itself. -/
def serverIteration (s : CameraState) (env : SnapEnv) (fs : Fs) :
    Option (ServerStep × CameraState × Fs) :=
  match snap s env fs with
  | none => none
  | some (r, s', fs') =>
    let src : List Nat × Int × Int := (r.bytes, WIDTH, HEIGHT)
    some ({ sent := r.bytes, packed := src }, s', fs')

/-- Which of the two devices currently hold driver-side resources; the
abstract state mutated by `is_ExitCamera`. -/
structure DriverState where
  opened1 : Bool
  opened2 : Bool
deriving DecidableEq, Repr

/-- The driver's `is_ExitCamera`: releases the device's resources (a no-op
on an already-released device) and reports an error code in that case. -/
def exitCamera (d : DriverState) (id : Nat) : DriverState × DriverResult :=
  if id = LEFT_DEV_ID then
    (⟨false, d.opened2⟩,
     if d.opened1 then DriverResult.IS_SUCCESS else DriverResult.IS_NO_SUCCESS)
  else if id = RIGHT_DEV_ID then
    (⟨d.opened1, false⟩,
     if d.opened2 then DriverResult.IS_SUCCESS else DriverResult.IS_NO_SUCCESS)
  else
    (d, DriverResult.IS_NO_SUCCESS)

/-- `Camera::destroy` (src/mosley.cpp lines 177-183): calls `is_ExitCamera`
and deliberately discards its result — nothing is thrown. -/
def destroy (d : DriverState) (id : Nat) : Except String DriverState :=
  Except.ok (exitCamera d id).1

/-- `Camera::~Camera` (src/mosley.cpp lines 38-43): `destroy` on each of the
two cameras in order. -/
def destructor (d : DriverState) : Except String DriverState :=
  match destroy d LEFT_DEV_ID with
  | Except.error e => Except.error e
  | Except.ok d1 => destroy d1 RIGHT_DEV_ID

/-! ### Decimal rendering

`operator<<` on an integer and `Nat.repr` both produce the decimal digit
string; the lemmas below give a left inverse (`decValue`) for it, hence
injectivity, which the uniqueness of artifact file names rests on. -/

/-- Numeric value of a decimal digit character. -/
def charToDigit (c : Char) : Nat := c.toNat - '0'.toNat

/-- Value of a decimal digit string (most significant digit first). -/
def decValue : List Char → Nat
  | [] => 0
  | c :: cs => charToDigit c * 10 ^ cs.length + decValue cs

theorem charToDigit_digitChar {m : Nat} (h : m < 10) :
    charToDigit (Nat.digitChar m) = m := by
  interval_cases m <;> rfl

theorem digitChar_isDigit {m : Nat} (h : m < 10) :
    (Nat.digitChar m).isDigit = true := by
  interval_cases m <;> rfl

theorem decValue_append (xs ys : List Char) :
    decValue (xs ++ ys) = decValue xs * 10 ^ ys.length + decValue ys := by
  induction xs with
  | nil => simp [decValue]
  | cons c cs ih =>
    simp [decValue, ih, List.length_append, pow_add]
    ring

theorem decValue_toDigitsCore (fuel : Nat) :
    ∀ (n : Nat) (ds : List Char), n < fuel →
      decValue (Nat.toDigitsCore 10 fuel n ds) =
        n * 10 ^ ds.length + decValue ds := by
  induction fuel with
  | zero => intro n ds h; omega
  | succ fuel ih =>
    intro n ds h
    simp only [Nat.toDigitsCore]
    by_cases h10 : n / 10 = 0
    · rw [if_pos h10]
      simp only [decValue]
      rw [charToDigit_digitChar (show n % 10 < 10 by omega),
        (show n % 10 = n by omega)]
    · rw [if_neg h10, ih (n / 10) _ (by omega)]
      obtain ⟨q, r, hr10, hn⟩ : ∃ q r, r < 10 ∧ n = 10 * q + r :=
        ⟨n / 10, n % 10, by omega, by omega⟩
      have hq : n / 10 = q := by omega
      have hr : n % 10 = r := by omega
      rw [hq, hr, hn]
      simp only [decValue, List.length_cons, charToDigit_digitChar hr10, pow_succ]
      ring

theorem decValue_toDigits (n : Nat) : decValue (Nat.toDigits 10 n) = n := by
  rw [Nat.toDigits, decValue_toDigitsCore (n + 1) n [] (by omega)]
  simp [decValue]

theorem toDigitsCore_isDigit (fuel : Nat) :
    ∀ (n : Nat) (ds : List Char), (∀ c ∈ ds, c.isDigit = true) →
      ∀ c ∈ Nat.toDigitsCore 10 fuel n ds, c.isDigit = true := by
  induction fuel with
  | zero => intro n ds hds; simpa [Nat.toDigitsCore] using hds
  | succ fuel ih =>
    intro n ds hds c hc
    simp only [Nat.toDigitsCore] at hc
    by_cases h10 : n / 10 = 0
    · rw [if_pos h10] at hc
      rcases List.mem_cons.mp hc with rfl | hmem
      · exact digitChar_isDigit (show n % 10 < 10 by omega)
      · exact hds c hmem
    · rw [if_neg h10] at hc
      refine ih (n / 10) _ ?_ c hc
      intro c' hc'
      rcases List.mem_cons.mp hc' with rfl | hmem
      · exact digitChar_isDigit (show n % 10 < 10 by omega)
      · exact hds c' hmem

theorem repr_data (n : Nat) : (Nat.repr n).data = Nat.toDigits 10 n := rfl

theorem repr_isDigit (n : Nat) :
    ∀ c ∈ (Nat.repr n).data, c.isDigit = true := by
  rw [repr_data, Nat.toDigits]
  exact toDigitsCore_isDigit (n + 1) n [] (by simp)

theorem natRepr_inj {a b : Nat}
    (h : (Nat.repr a).data = (Nat.repr b).data) : a = b := by
  rw [repr_data, repr_data] at h
  calc a = decValue (Nat.toDigits 10 a) := (decValue_toDigits a).symm
    _ = decValue (Nat.toDigits 10 b) := by rw [h]
    _ = b := decValue_toDigits b

/-- Splitting at a separator that occurs in neither left part is unique. -/
theorem append_sep_inj {α : Type} (sep : α) :
    ∀ (xs xs' ys ys' : List α), sep ∉ xs → sep ∉ xs' →
      xs ++ sep :: ys = xs' ++ sep :: ys' → xs = xs' ∧ ys = ys' := by
  intro xs
  induction xs with
  | nil =>
    intro xs' ys ys' _ hx' h
    cases xs' with
    | nil => simpa using h
    | cons a t =>
      simp only [List.nil_append, List.cons_append, List.cons.injEq] at h
      obtain ⟨h1, -⟩ := h
      subst h1
      exact absurd (List.mem_cons_self _ _) hx'
  | cons a t ih =>
    intro xs' ys ys' hx hx' h
    cases xs' with
    | nil =>
      simp only [List.cons_append, List.nil_append, List.cons.injEq] at h
      obtain ⟨h1, -⟩ := h
      subst h1
      exact absurd (List.mem_cons_self _ _) hx
    | cons a' t' =>
      simp only [List.cons_append, List.cons.injEq] at h
      obtain ⟨rfl, h2⟩ := h
      have := ih t' ys ys' (fun hm => hx (List.mem_cons_of_mem _ hm))
        (fun hm => hx' (List.mem_cons_of_mem _ hm)) h2
      exact ⟨by rw [this.1], this.2⟩

theorem mkFilename_inj {a b c d : Nat} (h : mkFilename a b = mkFilename c d) :
    a = c ∧ b = d := by
  have hdata : ("images/camera-".data ++
        ((Nat.repr a).data ++ ('-' :: ((Nat.repr b).data ++ ".jpg".data)))) =
      ("images/camera-".data ++
        ((Nat.repr c).data ++ ('-' :: ((Nat.repr d).data ++ ".jpg".data)))) := by
    have := congrArg String.data h
    simp only [mkFilename, String.data_append] at this
    simpa [List.append_assoc] using this
  have h1 := List.append_cancel_left hdata
  have hna : '-' ∉ (Nat.repr a).data := fun hm => by
    simpa using repr_isDigit a '-' hm
  have hnc : '-' ∉ (Nat.repr c).data := fun hm => by
    simpa using repr_isDigit c '-' hm
  obtain ⟨hac, hbd⟩ := append_sep_inj '-' _ _ _ _ hna hnc h1
  have hnb : '.' ∉ (Nat.repr b).data := fun hm => by
    simpa using repr_isDigit b '.' hm
  have hnd : '.' ∉ (Nat.repr d).data := fun hm => by
    simpa using repr_isDigit d '.' hm
  have hbd' : (Nat.repr b).data ++ '.' :: ['j', 'p', 'g'] =
      (Nat.repr d).data ++ '.' :: ['j', 'p', 'g'] := hbd
  obtain ⟨hb, _⟩ := append_sep_inj '.' _ _ _ _ hnb hnd hbd'
  exact ⟨natRepr_inj hac, natRepr_inj hb⟩

/-! ### Behaviour of the freeze loop -/

theorem freezeLoop_isSome_iff (l : List DriverResult) :
    (freezeLoop l).isSome ↔ DriverResult.IS_SUCCESS ∈ l := by
  induction l with
  | nil => simp [freezeLoop]
  | cons r rs ih =>
    by_cases hr : r = DriverResult.IS_SUCCESS
    · subst hr; simp [freezeLoop]
    · have hmap : ∀ (o : Option Nat), (o.map (· + 1)).isSome = o.isSome := by
        intro o; cases o <;> rfl
      simp only [freezeLoop, if_neg hr, hmap, ih, List.mem_cons]
      constructor
      · exact fun h => Or.inr h
      · rintro (h | h)
        · exact absurd h.symm hr
        · exact h

theorem freezeLoop_spec (l : List DriverResult) :
    ∀ n, freezeLoop l = some n →
      1 ≤ n ∧ l.get? (n - 1) = some DriverResult.IS_SUCCESS ∧
        ∀ m, m < n - 1 → l.get? m ≠ some DriverResult.IS_SUCCESS := by
  induction l with
  | nil => intro n h; simp [freezeLoop] at h
  | cons r rs ih =>
    intro n h
    by_cases hr : r = DriverResult.IS_SUCCESS
    · subst hr
      simp [freezeLoop] at h
      subst h
      exact ⟨le_refl 1, by simp, fun m hm => by omega⟩
    · simp [freezeLoop, hr] at h
      obtain ⟨k, hk, rfl⟩ := h
      obtain ⟨hk1, hkget, hkmin⟩ := ih k hk
      refine ⟨by omega, ?_, ?_⟩
      · have : k + 1 - 1 = (k - 1) + 1 := by omega
        rw [this, List.get?_cons_succ]
        exact hkget
      · intro m hm
        cases m with
        | zero => simp [hr]
        | succ m' =>
          rw [List.get?_cons_succ]
          exact hkmin m' (by omega)

/-- One `snap` call, unfolded, once the freeze loop is known to stop after
`n` iterations. -/
theorem snap_some (s : CameraState) (env : SnapEnv) (fs : Fs) (n : Nat)
    (hn : freezeLoop env.freezes = some n) :
    snap s env fs =
      some ({ devId := (cameras s.current).id
              filename := mkFilename (cameras s.current).id
                (s.count.get (nextIdx s.current))
              attempts := n
              warning := encodeWarning env.encodeResult
              bytes := ((if env.encodeResult = DriverResult.IS_SUCCESS
                  then Fs.write fs (mkFilename (cameras s.current).id
                    (s.count.get (nextIdx s.current))) env.encodedBytes
                  else fs).read (mkFilename (cameras s.current).id
                    (s.count.get (nextIdx s.current)))).getD [] },
            ⟨nextIdx s.current, s.count.bump (nextIdx s.current)⟩,
            if env.encodeResult = DriverResult.IS_SUCCESS
            then Fs.write fs (mkFilename (cameras s.current).id
              (s.count.get (nextIdx s.current))) env.encodedBytes
            else fs) := by
  simp only [snap, hn]

/-! ### The rotation/counter state after `k` completed captures -/

/-- What the `static` state of `snap` looks like after `k` completed calls:
cursor `k % 2`; slot 0 of `count` has been bumped on every odd-numbered
call so far (it names captures of device index 1) and slot 1 on every
even-numbered call (captures of device index 0). -/
def stateAfter (k : Nat) : CameraState :=
  ⟨⟨k % 2, by omega⟩, ⟨k / 2, (k + 1) / 2⟩⟩

theorem initState_eq : initState = stateAfter 0 := rfl

theorem nextIdx_stateAfter (k : Nat) :
    nextIdx (stateAfter k).current = (stateAfter (k + 1)).current := by
  apply Fin.ext
  show (k % 2 + 1) % 2 = (k + 1) % 2
  omega

theorem get_stateAfter (k : Nat) :
    (stateAfter k).count.get (nextIdx (stateAfter k).current) = k / 2 := by
  show (if (k % 2 + 1) % 2 = 0 then k / 2 else (k + 1) / 2) = k / 2
  by_cases hk : k % 2 = 0
  · rw [if_neg (by omega)]; omega
  · rw [if_pos (by omega)]

theorem bump_stateAfter (k : Nat) :
    (stateAfter k).count.bump (nextIdx (stateAfter k).current) =
      (stateAfter (k + 1)).count := by
  show (if (k % 2 + 1) % 2 = 0 then (⟨k / 2 + 1, (k + 1) / 2⟩ : Counts)
        else ⟨k / 2, (k + 1) / 2 + 1⟩) = ⟨(k + 1) / 2, (k + 1 + 1) / 2⟩
  by_cases hk : k % 2 = 0
  · rw [if_neg (by omega), Counts.mk.injEq]
    exact ⟨by omega, by omega⟩
  · rw [if_pos (by omega), Counts.mk.injEq]
    exact ⟨by omega, by omega⟩

/-- One `snap` call from the state after `k` completed captures: the device
at index `k % 2` fires and the artifact is numbered `k / 2` — note the
per-device number is read from slot `(k+1) % 2` of `count`, the slot the
already-advanced cursor points at, exactly as `count[current]++` does on
line 83 of the source; under strict alternation that slot holds precisely
this device's capture count. -/
theorem snap_stateAfter (k : Nat) (e : SnapEnv) (fs : Fs) (n : Nat)
    (hn : freezeLoop e.freezes = some n) :
    snap (stateAfter k) e fs =
      some ({ devId := (cameras ⟨k % 2, by omega⟩).id
              filename := mkFilename (cameras ⟨k % 2, by omega⟩).id (k / 2)
              attempts := n
              warning := encodeWarning e.encodeResult
              bytes := ((if e.encodeResult = DriverResult.IS_SUCCESS
                  then Fs.write fs (mkFilename (cameras ⟨k % 2, by omega⟩).id (k / 2))
                    e.encodedBytes else fs).read
                  (mkFilename (cameras ⟨k % 2, by omega⟩).id (k / 2))).getD [] },
            stateAfter (k + 1),
            if e.encodeResult = DriverResult.IS_SUCCESS
            then Fs.write fs (mkFilename (cameras ⟨k % 2, by omega⟩).id (k / 2))
              e.encodedBytes else fs) := by
  rw [snap_some (stateAfter k) e fs n hn]
  have hget := get_stateAfter k
  have hst : (⟨nextIdx (stateAfter k).current,
      (stateAfter k).count.bump (nextIdx (stateAfter k).current)⟩ : CameraState) =
      stateAfter (k + 1) := by
    rw [bump_stateAfter k, nextIdx_stateAfter k]
  rw [hget, hst]
  rfl

/-- Master lemma: a run of `snap` calls starting after `k` completed
captures, where every call's freeze loop eventually succeeds, completes
all the calls; call `j` of the run uses the device at index `(k+j) % 2` and
names its artifact with that device's id and per-device sequence number
`(k+j) / 2`. -/
theorem runSnaps_spec :
    ∀ (envs : List SnapEnv) (k : Nat) (fs : Fs),
      (∀ e ∈ envs, DriverResult.IS_SUCCESS ∈ e.freezes) →
      ∃ results fs',
        runSnaps (stateAfter k) fs envs =
          some (results, stateAfter (k + envs.length), fs')
        ∧ results.length = envs.length
        ∧ ∀ j (hj : j < results.length),
            (results.get ⟨j, hj⟩).devId = (cameras ⟨(k + j) % 2, by omega⟩).id
            ∧ (results.get ⟨j, hj⟩).filename =
                mkFilename (cameras ⟨(k + j) % 2, by omega⟩).id ((k + j) / 2) := by
  intro envs
  induction envs with
  | nil =>
    intro k fs _
    exact ⟨[], fs, by simp [runSnaps], rfl, fun j hj => absurd hj (by simp)⟩
  | cons e es ih =>
    intro k fs h
    have he : DriverResult.IS_SUCCESS ∈ e.freezes := h e (List.mem_cons_self e es)
    obtain ⟨n, hn⟩ := Option.isSome_iff_exists.mp
      ((freezeLoop_isSome_iff e.freezes).mpr he)
    have hsnap := snap_stateAfter k e fs n hn
    obtain ⟨rs, fs2, hrun, hlen, hprop⟩ :=
      ih (k + 1)
        (if e.encodeResult = DriverResult.IS_SUCCESS
         then Fs.write fs (mkFilename (cameras ⟨k % 2, by omega⟩).id (k / 2))
           e.encodedBytes else fs)
        (fun e' he' => h e' (List.mem_cons_of_mem e he'))
    refine ⟨{ devId := (cameras ⟨k % 2, by omega⟩).id
              filename := mkFilename (cameras ⟨k % 2, by omega⟩).id (k / 2)
              attempts := n
              warning := encodeWarning e.encodeResult
              bytes := ((if e.encodeResult = DriverResult.IS_SUCCESS
                  then Fs.write fs (mkFilename (cameras ⟨k % 2, by omega⟩).id (k / 2))
                    e.encodedBytes else fs).read
                  (mkFilename (cameras ⟨k % 2, by omega⟩).id (k / 2))).getD []
            } :: rs, fs2, ?_, by simpa using hlen, ?_⟩
    · rw [show k + (e :: es).length = k + 1 + es.length by
        simp only [List.length_cons]; omega]
      simp only [runSnaps, hsnap, hrun]
    · intro j hj
      cases j with
      | zero => exact ⟨rfl, rfl⟩
      | succ j' =>
        have hj' : j' < rs.length := by simpa using hj
        have hp := hprop j' hj'
        have hidx : (k + 1 + j') % 2 = (k + (j' + 1)) % 2 := by omega
        have hdiv : (k + 1 + j') / 2 = (k + (j' + 1)) / 2 := by omega
        constructor
        · show (rs.get ⟨j', hj'⟩).devId = _
          rw [hp.1]
          exact congrArg (fun i => (cameras i).id) (Fin.ext hidx)
        · show (rs.get ⟨j', hj'⟩).filename = _
          rw [hp.2, hdiv]
          exact congrArg (fun i => mkFilename (cameras i).id ((k + (j' + 1)) / 2))
            (Fin.ext hidx)

/-- The device id stored at index `v` of the `cameras` array is `v + 1`. -/
theorem cameras_id (v : Nat) (hv : v < 2) : (cameras ⟨v, hv⟩).id = v + 1 := by
  show (if v = 0 then (⟨LEFT_DEV_ID⟩ : Physical_camera) else ⟨RIGHT_DEV_ID⟩).id = v + 1
  by_cases h : v = 0
  · rw [if_pos h, h]; decide
  · rw [if_neg h]
    have hv1 : v = 1 := by omega
    rw [hv1]; decide

/-! ### Claim theorems -/

/-- C1: for every sequence of N snap calls (each of whose freeze loops
eventually succeeds, encode outcomes arbitrary), the device used on the
k-th call (1-indexed) is the device at index (k-1) mod 2, the rotation
cursor equals N mod 2 after the N-th call, and each snap call advances the
cursor by exactly one step mod 2, unconditionally. -/
theorem rotation_invariant (envs : List SnapEnv) (fs : Fs)
    (h : ∀ e ∈ envs, DriverResult.IS_SUCCESS ∈ e.freezes) :
    (∃ results s' fs',
      runSnaps initState fs envs = some (results, s', fs')
      ∧ results.length = envs.length
      ∧ (∀ k (hk : k < results.length),
          (results.get ⟨k, hk⟩).devId = (cameras ⟨k % 2, by omega⟩).id)
      ∧ s'.current.val = envs.length % 2)
    ∧ ∀ (s : CameraState) (e : SnapEnv) (f : Fs) r s2 f2,
        snap s e f = some (r, s2, f2) → s2.current = nextIdx s.current := by
  constructor
  · obtain ⟨results, fs', hrun, hlen, hprop⟩ := runSnaps_spec envs 0 fs h
    refine ⟨results, stateAfter (0 + envs.length), fs', ?_, hlen, ?_, ?_⟩
    · rw [initState_eq]; exact hrun
    · intro k hk
      rw [(hprop k hk).1]
      exact congrArg (fun i => (cameras i).id)
        (Fin.ext (show (0 + k) % 2 = k % 2 by omega))
    · show (0 + envs.length) % 2 = envs.length % 2
      omega
  · intro s e f r s2 f2 hsnap
    cases hfl : freezeLoop e.freezes with
    | none =>
      simp only [snap, hfl] at hsnap
      exact Option.noConfusion hsnap
    | some n =>
      rw [snap_some s e f n hfl] at hsnap
      simp only [Option.some.injEq, Prod.mk.injEq] at hsnap
      obtain ⟨-, hs2, -⟩ := hsnap
      rw [← hs2]

/-- C1 witness: a concrete two-call run. -/
theorem rotation_invariant_witness :
    ∃ results s' fs',
      runSnaps initState []
        [⟨[DriverResult.IS_SUCCESS], DriverResult.IS_SUCCESS, [1]⟩,
         ⟨[DriverResult.IS_NO_SUCCESS, DriverResult.IS_SUCCESS],
          DriverResult.IS_NO_SUCCESS, []⟩] = some (results, s', fs')
      ∧ s'.current.val = 0 := by
  obtain ⟨⟨results, s', fs', h1, -, -, h4⟩, -⟩ :=
    rotation_invariant
      [⟨[DriverResult.IS_SUCCESS], DriverResult.IS_SUCCESS, [1]⟩,
       ⟨[DriverResult.IS_NO_SUCCESS, DriverResult.IS_SUCCESS],
        DriverResult.IS_NO_SUCCESS, []⟩] [] (by decide)
  exact ⟨results, s', fs', h1, h4⟩

/-- C2: artifact names follow `images/camera-<device-id>-<sequence>.jpg`;
the j-th capture of device index i (at global call 2j+i, 0-indexed) carries
that device's id and per-device sequence number j, which therefore starts
at 0 and increases by exactly 1 per capture of that device; and no two
captures of a run ever share a filename. -/
theorem filename_scheme (envs : List SnapEnv) (fs : Fs)
    (h : ∀ e ∈ envs, DriverResult.IS_SUCCESS ∈ e.freezes) :
    ∃ results s' fs', runSnaps initState fs envs = some (results, s', fs')
      ∧ results.length = envs.length
      ∧ (∀ k (hk : k < results.length),
          (results.get ⟨k, hk⟩).filename =
            mkFilename (cameras ⟨k % 2, by omega⟩).id (k / 2))
      ∧ (∀ (i : Fin 2) (m : Nat) (hm : 2 * m + i.val < results.length),
          (results.get ⟨2 * m + i.val, hm⟩).devId = (cameras i).id
          ∧ (results.get ⟨2 * m + i.val, hm⟩).filename =
              mkFilename (cameras i).id m)
      ∧ (∀ k k' (hk : k < results.length) (hk' : k' < results.length), k ≠ k' →
          (results.get ⟨k, hk⟩).filename ≠ (results.get ⟨k', hk'⟩).filename) := by
  obtain ⟨results, fs', hrun, hlen, hprop⟩ := runSnaps_spec envs 0 fs h
  have hfname : ∀ k (hk : k < results.length),
      (results.get ⟨k, hk⟩).filename =
        mkFilename (cameras ⟨k % 2, by omega⟩).id (k / 2) := by
    intro k hk
    rw [(hprop k hk).2]
    rw [show (0 + k) / 2 = k / 2 by omega]
    exact congrArg (fun i => mkFilename (cameras i).id (k / 2))
      (Fin.ext (show (0 + k) % 2 = k % 2 by omega))
  have hdev : ∀ k (hk : k < results.length),
      (results.get ⟨k, hk⟩).devId = (cameras ⟨k % 2, by omega⟩).id := by
    intro k hk
    rw [(hprop k hk).1]
    exact congrArg (fun i => (cameras i).id)
      (Fin.ext (show (0 + k) % 2 = k % 2 by omega))
  refine ⟨results, stateAfter (0 + envs.length), fs', ?_, hlen, hfname, ?_, ?_⟩
  · rw [initState_eq]; exact hrun
  · intro i m hm
    constructor
    · rw [hdev (2 * m + i.val) hm]
      exact congrArg (fun j => (cameras j).id)
        (Fin.ext (show (2 * m + i.val) % 2 = i.val by omega))
    · rw [hfname (2 * m + i.val) hm]
      rw [show (2 * m + i.val) / 2 = m by omega]
      exact congrArg (fun j => mkFilename (cameras j).id m)
        (Fin.ext (show (2 * m + i.val) % 2 = i.val by omega))
  · intro k k' hk hk' hne heq
    rw [hfname k hk, hfname k' hk'] at heq
    rw [cameras_id (k % 2) (by omega), cameras_id (k' % 2) (by omega)] at heq
    obtain ⟨hid, hseq⟩ := mkFilename_inj heq
    omega

/-- C2 witness: a concrete three-call run. -/
theorem filename_scheme_witness :
    ∃ results s' fs',
      runSnaps initState []
        [⟨[DriverResult.IS_SUCCESS], DriverResult.IS_SUCCESS, [1]⟩,
         ⟨[DriverResult.IS_SUCCESS], DriverResult.IS_SUCCESS, [2]⟩,
         ⟨[DriverResult.IS_SUCCESS], DriverResult.IS_SUCCESS, [3]⟩] =
        some (results, s', fs')
      ∧ results.length = 3 := by
  obtain ⟨results, s', fs', h1, h2, -, -, -⟩ :=
    filename_scheme
      [⟨[DriverResult.IS_SUCCESS], DriverResult.IS_SUCCESS, [1]⟩,
       ⟨[DriverResult.IS_SUCCESS], DriverResult.IS_SUCCESS, [2]⟩,
       ⟨[DriverResult.IS_SUCCESS], DriverResult.IS_SUCCESS, [3]⟩] [] (by decide)
  exact ⟨results, s', fs', h1, h2⟩

/-- C5: the acquisition loop of `snap` never surfaces a failure: `snap`
returns at all exactly when the driver's freeze-answer sequence eventually
reports success; when it returns, the loop ran at least once, stopped at
the first success, and retried (re-binding the buffer and re-issuing the
freeze, one of each per attempt) on every earlier non-success answer. -/
theorem freeze_unbounded_retry (s : CameraState) (env : SnapEnv) (fs : Fs) :
    ((snap s env fs).isSome ↔ DriverResult.IS_SUCCESS ∈ env.freezes)
    ∧ (∀ r s' fs', snap s env fs = some (r, s', fs') →
        1 ≤ r.attempts
        ∧ env.freezes.get? (r.attempts - 1) = some DriverResult.IS_SUCCESS
        ∧ ∀ m, m < r.attempts - 1 →
            env.freezes.get? m ≠ some DriverResult.IS_SUCCESS) := by
  constructor
  · have hiff : (snap s env fs).isSome = (freezeLoop env.freezes).isSome := by
      cases hfl : freezeLoop env.freezes with
      | none => simp [snap, hfl]
      | some n => rw [snap_some s env fs n hfl]; rfl
    rw [show ((snap s env fs).isSome = true) =
        ((freezeLoop env.freezes).isSome = true) by rw [hiff]]
    exact freezeLoop_isSome_iff env.freezes
  · intro r s' fs' hsnap
    cases hfl : freezeLoop env.freezes with
    | none =>
      simp only [snap, hfl] at hsnap
      exact Option.noConfusion hsnap
    | some n =>
      rw [snap_some s env fs n hfl] at hsnap
      simp only [Option.some.injEq, Prod.mk.injEq] at hsnap
      obtain ⟨hr, -, -⟩ := hsnap
      obtain ⟨h1, h2, h3⟩ := freezeLoop_spec env.freezes n hfl
      rw [← hr]
      exact ⟨h1, h2, h3⟩

/-- C5 witness: two failed freezes, then a success, on concrete state. -/
theorem freeze_unbounded_retry_witness :
    (snap initState
        ⟨[DriverResult.IS_NO_SUCCESS, DriverResult.IS_NOT_SUPPORTED,
          DriverResult.IS_SUCCESS], DriverResult.IS_SUCCESS, [5]⟩ []).isSome
    ∧ ¬ (snap initState
        ⟨[DriverResult.IS_NO_SUCCESS], DriverResult.IS_SUCCESS, [5]⟩ []).isSome := by
  constructor
  · exact ((freeze_unbounded_retry initState
      ⟨[DriverResult.IS_NO_SUCCESS, DriverResult.IS_NOT_SUPPORTED,
        DriverResult.IS_SUCCESS], DriverResult.IS_SUCCESS, [5]⟩ []).1).mpr
      (by decide)
  · intro hc
    exact absurd (((freeze_unbounded_retry initState
      ⟨[DriverResult.IS_NO_SUCCESS], DriverResult.IS_SUCCESS, [5]⟩ []).1).mp hc)
      (by decide)

/-- The five non-success codes named in the `switch` after `is_ImageFile`. -/
def knownEncodeFailures : List DriverResult :=
  [DriverResult.IS_INVALID_PARAMETER, DriverResult.IS_FILE_READ_INVALID_BMP_ID,
   DriverResult.IS_FILE_READ_OPEN_ERROR, DriverResult.IS_NO_SUCCESS,
   DriverResult.IS_NOT_SUPPORTED]

/-- C6: a known non-success encode code makes `snap` log a warning naming
that code (the warnings of the known codes are pairwise distinct), leave
the disk untouched, return whatever bytes are on disk under the computed
filename, and still return normally with the cursor advanced. -/
theorem encode_failure_nonfatal (s : CameraState) (env : SnapEnv) (fs : Fs)
    (hfr : DriverResult.IS_SUCCESS ∈ env.freezes)
    (henc : env.encodeResult ∈ knownEncodeFailures) :
    ∃ r s' fs', snap s env fs = some (r, s', fs')
      ∧ fs' = fs
      ∧ (∃ msg, r.warning = some msg)
      ∧ r.warning = encodeWarning env.encodeResult
      ∧ (∀ c ∈ knownEncodeFailures, ∀ c' ∈ knownEncodeFailures,
          encodeWarning c = encodeWarning c' → c = c')
      ∧ r.bytes = (fs.read r.filename).getD []
      ∧ s'.current = nextIdx s.current := by
  obtain ⟨n, hn⟩ := Option.isSome_iff_exists.mp
    ((freezeLoop_isSome_iff env.freezes).mpr hfr)
  have hne : env.encodeResult ≠ DriverResult.IS_SUCCESS := by
    intro hcontra
    rw [hcontra] at henc
    exact absurd henc (by decide)
  have hmsg : ∃ msg, encodeWarning env.encodeResult = some msg := by
    have h5 : env.encodeResult = DriverResult.IS_INVALID_PARAMETER
        ∨ env.encodeResult = DriverResult.IS_FILE_READ_INVALID_BMP_ID
        ∨ env.encodeResult = DriverResult.IS_FILE_READ_OPEN_ERROR
        ∨ env.encodeResult = DriverResult.IS_NO_SUCCESS
        ∨ env.encodeResult = DriverResult.IS_NOT_SUPPORTED := by
      simpa [knownEncodeFailures] using henc
    rcases h5 with h | h | h | h | h <;> rw [h] <;> exact ⟨_, rfl⟩
  have hsnap := snap_some s env fs n hn
  simp only [if_neg hne] at hsnap
  exact ⟨_, _, _, hsnap, rfl, hmsg, rfl, by decide, rfl, rfl⟩

/-- C6 witness: one concrete capture whose encode step reports
`IS_NO_SUCCESS`. -/
theorem encode_failure_nonfatal_witness :
    ∃ r s' fs',
      snap initState
        ⟨[DriverResult.IS_SUCCESS], DriverResult.IS_NO_SUCCESS, [9]⟩ [] =
        some (r, s', fs')
      ∧ fs' = ([] : Fs)
      ∧ (∃ msg, r.warning = some msg)
      ∧ s'.current = nextIdx initState.current := by
  obtain ⟨r, s', fs', h1, h2, h3, -, -, -, h7⟩ :=
    encode_failure_nonfatal initState
      ⟨[DriverResult.IS_SUCCESS], DriverResult.IS_NO_SUCCESS, [9]⟩ []
      (by decide) (by decide)
  exact ⟨r, s', fs', h1, h2, h3, h7⟩

/-- C7: whenever `snap` returns bytes, the server loop iteration sends
exactly those bytes as the reply payload, unchanged; the msgpack envelope
`(bytes, 3648, 2736)` is built but is not what is sent. -/
theorem reply_raw_bytes (s : CameraState) (env : SnapEnv) (fs : Fs)
    (r : SnapResult) (s' : CameraState) (fs' : Fs)
    (h : snap s env fs = some (r, s', fs')) :
    ∃ step, serverIteration s env fs = some (step, s', fs')
      ∧ step.sent = r.bytes
      ∧ step.packed = (r.bytes, WIDTH, HEIGHT) := by
  refine ⟨{ sent := r.bytes, packed := (r.bytes, WIDTH, HEIGHT) }, ?_, rfl, rfl⟩
  simp only [serverIteration, h]

/-- C7 witness: a concrete request iteration. -/
theorem reply_raw_bytes_witness :
    ∃ step,
      serverIteration initState
        ⟨[DriverResult.IS_SUCCESS], DriverResult.IS_SUCCESS, [3, 4]⟩ [] =
        some (step,
          ⟨⟨1, by omega⟩, ⟨0, 1⟩⟩,
          [(mkFilename 1 0, [3, 4])])
      ∧ step.sent = [3, 4] := by
  obtain ⟨step, h1, h2, -⟩ :=
    reply_raw_bytes initState
      ⟨[DriverResult.IS_SUCCESS], DriverResult.IS_SUCCESS, [3, 4]⟩ []
      { devId := 1, filename := mkFilename 1 0, attempts := 1,
        warning := none, bytes := [3, 4] }
      ⟨⟨1, by omega⟩, ⟨0, 1⟩⟩ [(mkFilename 1 0, [3, 4])] (by decide)
  exact ⟨step, h1, by rw [h2]⟩

/-- C9: teardown never raises and is idempotent — `destroy` always
returns `ok` (any driver error from `is_ExitCamera` is discarded),
releasing an already-released device changes nothing, and the destructor
releases both devices and can run again on the resulting state with no
further effect. -/
theorem teardown_idempotent (d : DriverState) (id : Nat) :
    (∃ d2, destroy d id = Except.ok d2 ∧ destroy d2 id = Except.ok d2)
    ∧ (∃ d', destructor d = Except.ok d'
        ∧ d'.opened1 = false ∧ d'.opened2 = false
        ∧ destructor d' = Except.ok d') := by
  constructor
  · refine ⟨(exitCamera d id).1, rfl, ?_⟩
    show Except.ok (exitCamera (exitCamera d id).1 id).1 = _
    by_cases h1 : id = LEFT_DEV_ID
    · simp [exitCamera, h1, LEFT_DEV_ID, RIGHT_DEV_ID]
    · by_cases h2 : id = RIGHT_DEV_ID
      · simp [exitCamera, h1, h2, LEFT_DEV_ID, RIGHT_DEV_ID]
      · simp [exitCamera, h1, h2]
  · refine ⟨⟨false, false⟩, ?_, rfl, rfl, ?_⟩
    · show destructor d = _
      simp [destructor, destroy, exitCamera, LEFT_DEV_ID, RIGHT_DEV_ID]
    · simp [destructor, destroy, exitCamera, LEFT_DEV_ID, RIGHT_DEV_ID]

/-- C10: when the encode step failed and no file exists under the computed
name, `snap` returns an empty byte vector (no exception), and the server
iteration then sends an empty reply. -/
theorem missing_artifact_empty (s : CameraState) (env : SnapEnv) (fs : Fs)
    (hfr : DriverResult.IS_SUCCESS ∈ env.freezes)
    (henc : env.encodeResult ≠ DriverResult.IS_SUCCESS)
    (hread : fs.read (mkFilename (cameras s.current).id
      (s.count.get (nextIdx s.current))) = none) :
    ∃ r s' fs', snap s env fs = some (r, s', fs')
      ∧ r.bytes = []
      ∧ ∃ step, serverIteration s env fs = some (step, s', fs')
        ∧ step.sent = [] := by
  obtain ⟨n, hn⟩ := Option.isSome_iff_exists.mp
    ((freezeLoop_isSome_iff env.freezes).mpr hfr)
  have hsnap := snap_some s env fs n hn
  simp only [if_neg henc] at hsnap
  have hbytes : ((fs.read (mkFilename (cameras s.current).id
      (s.count.get (nextIdx s.current)))).getD ([] : List Nat)) = [] := by
    rw [hread]
    rfl
  have hserver :
      serverIteration s env fs =
        some ({ sent := (fs.read (mkFilename (cameras s.current).id
                  (s.count.get (nextIdx s.current)))).getD []
                packed := ((fs.read (mkFilename (cameras s.current).id
                  (s.count.get (nextIdx s.current)))).getD [], WIDTH, HEIGHT) },
          ⟨nextIdx s.current, s.count.bump (nextIdx s.current)⟩, fs) := by
    simp only [serverIteration, hsnap]
  exact ⟨_, _, _, hsnap, hbytes, _, hserver, hbytes⟩

/-- C10 witness: empty filesystem, failing encode, concrete state. -/
theorem missing_artifact_empty_witness :
    ∃ r s' fs',
      snap initState
        ⟨[DriverResult.IS_SUCCESS], DriverResult.IS_INVALID_PARAMETER, [1]⟩ [] =
        some (r, s', fs')
      ∧ r.bytes = []
      ∧ ∃ step, serverIteration initState
          ⟨[DriverResult.IS_SUCCESS], DriverResult.IS_INVALID_PARAMETER, [1]⟩ [] =
          some (step, s', fs') ∧ step.sent = [] :=
  missing_artifact_empty initState
    ⟨[DriverResult.IS_SUCCESS], DriverResult.IS_INVALID_PARAMETER, [1]⟩ []
    (by decide) (by decide) (by decide)

/-- C3: with fewer than two reported devices, `Camera::initialize` throws
the `DeviceUnavailable` message with no `is_InitCamera` call issued; with
two or more, the per-device setup starts at device `LEFT_DEV_ID`, and if it
succeeds both fixed device ids were opened, in order. -/
theorem initialize_two_cameras (env : InitEnv) :
    (env.numCams < 2 →
      initializeCameras false env =
        (Except.error "two cameras not available", []))
    ∧ (2 ≤ env.numCams →
      (∃ l, (initializeCameras false env).2 = LEFT_DEV_ID :: l)
      ∧ ((initializeCameras false env).1 = Except.ok () →
          (initializeCameras false env).2 = [LEFT_DEV_ID, RIGHT_DEV_ID])) := by
  constructor
  · intro h
    simp only [initializeCameras, if_pos h]
  · intro h
    have hn : ¬ env.numCams < 2 := by omega
    cases hd : initializeDevice false env LEFT_DEV_ID with
    | error e =>
      refine ⟨⟨[], ?_⟩, ?_⟩
      · simp only [initializeCameras, if_neg hn, hd]
      · intro hok
        simp only [initializeCameras, if_neg hn, hd] at hok
        exact Except.noConfusion hok
    | ok u =>
      cases u
      cases hd2 : initializeDevice false env RIGHT_DEV_ID with
      | error e =>
        refine ⟨⟨[RIGHT_DEV_ID], ?_⟩, ?_⟩
        · simp only [initializeCameras, if_neg hn, hd, hd2]
        · intro hok
          simp only [initializeCameras, if_neg hn, hd, hd2]
      | ok u2 =>
        cases u2
        refine ⟨⟨[RIGHT_DEV_ID], ?_⟩, fun _ => ?_⟩
        · simp only [initializeCameras, if_neg hn, hd, hd2]
        · simp only [initializeCameras, if_neg hn, hd, hd2]

/-- C3 witness: one device reported, then two devices reported with a
fully cooperative driver. -/
theorem initialize_two_cameras_witness :
    initializeCameras false
      { getNumResult := DriverResult.IS_SUCCESS, numCams := 1,
        initCamera := fun _ => DriverResult.IS_SUCCESS,
        enableAutoExit := fun _ => DriverResult.IS_SUCCESS,
        allocImageMem := fun _ => DriverResult.IS_SUCCESS,
        setImageMem := fun _ => DriverResult.IS_SUCCESS,
        imageFormat := fun _ => DriverResult.IS_SUCCESS,
        aoi := fun _ => DriverResult.IS_SUCCESS } =
      (Except.error "two cameras not available", [])
    ∧ ∃ l, (initializeCameras false
      { getNumResult := DriverResult.IS_SUCCESS, numCams := 2,
        initCamera := fun _ => DriverResult.IS_SUCCESS,
        enableAutoExit := fun _ => DriverResult.IS_SUCCESS,
        allocImageMem := fun _ => DriverResult.IS_SUCCESS,
        setImageMem := fun _ => DriverResult.IS_SUCCESS,
        imageFormat := fun _ => DriverResult.IS_SUCCESS,
        aoi := fun _ => DriverResult.IS_SUCCESS }).2 = LEFT_DEV_ID :: l := by
  constructor
  · exact (initialize_two_cameras _).1 (by decide)
  · exact ((initialize_two_cameras _).2 (by decide)).1

/-- A driver environment whose buffer-allocation, buffer-binding and
pixel-format calls all report failure while everything else succeeds. -/
def envBufferFailures : InitEnv :=
  { getNumResult := DriverResult.IS_SUCCESS
    numCams := 2
    initCamera := fun _ => DriverResult.IS_SUCCESS
    enableAutoExit := fun _ => DriverResult.IS_SUCCESS
    allocImageMem := fun _ => DriverResult.IS_NO_SUCCESS
    setImageMem := fun _ => DriverResult.IS_NO_SUCCESS
    imageFormat := fun _ => DriverResult.IS_NO_SUCCESS
    aoi := fun _ => DriverResult.IS_SUCCESS }

/-- C4 counterexample: a run in which `is_AllocImageMem`, `is_SetImageMem`
and `is_ImageFormat` all fail on every device, yet `Camera::initialize`
completes successfully — contradicting the claim that any failure in any
per-device setup step aborts initialization. -/
theorem setup_failure_cex :
    envBufferFailures.allocImageMem LEFT_DEV_ID ≠ DriverResult.IS_SUCCESS
    ∧ envBufferFailures.setImageMem LEFT_DEV_ID ≠ DriverResult.IS_SUCCESS
    ∧ envBufferFailures.imageFormat LEFT_DEV_ID ≠ DriverResult.IS_SUCCESS
    ∧ (initializeCameras false envBufferFailures).1 = Except.ok () := by
  refine ⟨by decide, by decide, by decide, ?_⟩
  rfl

/-- C4 amended: only failures of the device-open (`is_InitCamera`) and
auto-release-enrollment (`is_EnableAutoExit`) steps abort initialization;
the results of frame-buffer allocation, buffer binding and pixel-format
selection are discarded and can never influence the outcome. -/
theorem setup_failure_amended (env : InitEnv)
    (a b c : Nat → DriverResult) :
    (∀ camId, env.initCamera camId ≠ DriverResult.IS_SUCCESS →
      initializeDevice false env camId =
        Except.error "could not initialize camera")
    ∧ (∀ camId, env.initCamera camId = DriverResult.IS_SUCCESS →
        env.enableAutoExit camId ≠ DriverResult.IS_SUCCESS →
        initializeDevice false env camId =
          Except.error "could not enable auto exit")
    ∧ (2 ≤ env.numCams →
        initializeDevice false env LEFT_DEV_ID ≠ Except.ok () →
        ∃ msg, (initializeCameras false env).1 = Except.error msg)
    ∧ (2 ≤ env.numCams →
        initializeDevice false env LEFT_DEV_ID = Except.ok () →
        initializeDevice false env RIGHT_DEV_ID ≠ Except.ok () →
        ∃ msg, (initializeCameras false env).1 = Except.error msg)
    ∧ initializeCameras false
        { env with allocImageMem := a, setImageMem := b, imageFormat := c }
        = initializeCameras false env := by
  refine ⟨?_, ?_, ?_, ?_, rfl⟩
  · intro camId h
    simp only [initializeDevice, if_pos h]
  · intro camId h1 h2
    simp only [initializeDevice,
      if_neg (show ¬ env.initCamera camId ≠ DriverResult.IS_SUCCESS from
        fun hc => hc h1), if_pos h2]
  · intro h hno
    have hn : ¬ env.numCams < 2 := by omega
    cases hd : initializeDevice false env LEFT_DEV_ID with
    | error e =>
      exact ⟨e, by simp only [initializeCameras, if_neg hn, hd]⟩
    | ok u => cases u; exact absurd hd hno
  · intro h hok hno
    have hn : ¬ env.numCams < 2 := by omega
    cases hd2 : initializeDevice false env RIGHT_DEV_ID with
    | error e =>
      exact ⟨e, by simp only [initializeCameras, if_neg hn, hok, hd2]⟩
    | ok u2 => cases u2; exact absurd hd2 hno

/-- C4 amended witness: an open failure on device 1 aborts, and buffer
failures are invisible. -/
theorem setup_failure_amended_witness :
    initializeDevice false envBufferFailures LEFT_DEV_ID = Except.ok ()
    ∧ (∃ msg, (initializeCameras false
        { envBufferFailures with
          initCamera := fun _ => DriverResult.IS_NO_SUCCESS }).1 =
        Except.error msg) := by
  constructor
  · rfl
  · have hdev : initializeDevice false
        { envBufferFailures with
          initCamera := fun _ => DriverResult.IS_NO_SUCCESS } LEFT_DEV_ID =
        Except.error "could not initialize camera" := rfl
    exact (setup_failure_amended
      { envBufferFailures with
        initCamera := fun _ => DriverResult.IS_NO_SUCCESS }
      envBufferFailures.allocImageMem envBufferFailures.setImageMem
      envBufferFailures.imageFormat).2.2.1 (by decide)
      (by rw [hdev]; exact fun hc => Except.noConfusion hc)

/-- C8: with the region-of-interest block compiled in (`#if` guard on), a
driver rejection of `is_AOI` on an opened, auto-exit-enrolled device makes
the per-device setup fail with the `ConfigurationError` message; with the
block compiled out, as shipped (`#if 0`), the result of initialization is
entirely independent of the `is_AOI` oracle, so it cannot fail on account
of region-of-interest configuration. -/
theorem aoi_configuration (env : InitEnv) (g : Nat → DriverResult) :
    (∀ camId, env.initCamera camId = DriverResult.IS_SUCCESS →
      env.enableAutoExit camId = DriverResult.IS_SUCCESS →
      env.aoi camId ≠ DriverResult.IS_SUCCESS →
      initializeDevice true env camId =
        Except.error "could not set AOI for camera")
    ∧ initializeCameras false { env with aoi := g }
        = initializeCameras false env
    ∧ ∀ camId, initializeDevice false { env with aoi := g } camId
        = initializeDevice false env camId := by
  refine ⟨?_, rfl, fun _ => rfl⟩
  intro camId h1 h2 h3
  simp only [initializeDevice,
    if_neg (show ¬ env.initCamera camId ≠ DriverResult.IS_SUCCESS from
      fun hc => hc h1),
    if_neg (show ¬ env.enableAutoExit camId ≠ DriverResult.IS_SUCCESS from
      fun hc => hc h2)]
  rw [if_pos ⟨by trivial, h3⟩]

/-- C8 witness: a cooperative driver that rejects only `is_AOI`. -/
theorem aoi_configuration_witness :
    initializeDevice true
      { envBufferFailures with
        allocImageMem := fun _ => DriverResult.IS_SUCCESS,
        setImageMem := fun _ => DriverResult.IS_SUCCESS,
        imageFormat := fun _ => DriverResult.IS_SUCCESS,
        aoi := fun _ => DriverResult.IS_NO_SUCCESS } LEFT_DEV_ID =
      Except.error "could not set AOI for camera"
    ∧ initializeCameras false
        { envBufferFailures with aoi := fun _ => DriverResult.IS_NO_SUCCESS }
        = initializeCameras false envBufferFailures := by
  constructor
  · exact (aoi_configuration
      { envBufferFailures with
        allocImageMem := fun _ => DriverResult.IS_SUCCESS,
        setImageMem := fun _ => DriverResult.IS_SUCCESS,
        imageFormat := fun _ => DriverResult.IS_SUCCESS,
        aoi := fun _ => DriverResult.IS_NO_SUCCESS }
      (fun _ => DriverResult.IS_NO_SUCCESS)).1 LEFT_DEV_ID
      (by decide) (by decide) (by decide)
  · exact (aoi_configuration envBufferFailures
      (fun _ => DriverResult.IS_NO_SUCCESS)).2.1

end Mosley
